import Mathlib

/-!
Shallow embedding of the data-shaping pipeline of the student-records
dashboard (tutosv.py): the CSV loader with its column normalization,
and the four aggregations (value-count tabulation, two-key grouped
count, the domain-restricted box-plot filter and the filtered pivot
feeding the heatmap).  Tables are headers plus rows of string cells;
the typed aggregations work on lists of student rows.
-/

namespace TutoSV

/-- A loaded CSV table: column headers and rows of string cells. -/
structure Table where
  headers : List String
  rows : List (List String)
deriving DecidableEq

/-- The empty DataFrame returned by the loader on failure. -/
def emptyTable : Table := ⟨[], []⟩

def COL_SSC_GPA : String := "S.S.C (GPA)"

def COL_HSC_GPA : String := "H.S.C (GPA)"

def COL_GENDER : String := "Gender"

/-- The observed raw header name, with an embedded literal tab. -/
def COL_ACADEMIC_YEAR_RAW : String := "Bachelor \tAcademic Year in EU"

/-- The plain-space variant of the raw header name. -/
def COL_ACADEMIC_YEAR_SPACE : String := "Bachelor Academic Year in EU"

/-- The canonical key the academic-year column is renamed to. -/
def COL_ACADEMIC_YEAR : String := "Academic Year"

/-- The user-visible message when the academic-year column is missing. -/
def NOT_FOUND_MSG : String :=
  "The Bachelor Academic Year in EU column was not found. Please check the CSV file structure."

/-- df.rename with a one-entry columns mapping: every header equal to
old becomes new, all other headers and all cell values are untouched. -/
def renameColumn (old new : String) (t : Table) : Table :=
  { t with headers := t.headers.map (fun h => if h = old then new else h) }

/-- The column-normalization step of load_data: rename the raw header
(tab variant, then plain-space variant) to the canonical key, or fail
with the missing-column error.  Cell values are not modified. -/
def normalizeColumns (t : Table) : Except String Table :=
  if COL_ACADEMIC_YEAR_RAW ∈ t.headers then
    Except.ok (renameColumn COL_ACADEMIC_YEAR_RAW COL_ACADEMIC_YEAR t)
  else if COL_ACADEMIC_YEAR_SPACE ∈ t.headers then
    Except.ok (renameColumn COL_ACADEMIC_YEAR_SPACE COL_ACADEMIC_YEAR t)
  else
    Except.error NOT_FOUND_MSG

/-- What load_data hands back: the table plus the error message
surfaced through st.error, when any. -/
structure LoadResult where
  table : Table
  errorMsg : Option String
deriving DecidableEq

/-- load_data: one fetch attempt (the function consults only attempt 0
of the fetch oracle), then normalization; every failure path returns
the explicit empty table together with a surfaced error message. -/
def load_data (fetch : Nat → Except String Table) : LoadResult :=
  match fetch 0 with
  | Except.ok df =>
      match normalizeColumns df with
      | Except.ok df2 => ⟨df2, none⟩
      | Except.error m => ⟨emptyTable, some m⟩
  | Except.error e => ⟨emptyTable, some ("Error loading data from GitHub: " ++ e)⟩

/-- The key columns checked before any chart is rendered. -/
def REQUIRED_COLS : List String :=
  [COL_SSC_GPA, COL_HSC_GPA, COL_GENDER, COL_ACADEMIC_YEAR]

/-- The dashboard body: the st.stop guard modelled as none.  A some
result carries the table every preview and chart is rendered from; a
none result is the halted render pass with no partial output. -/
def runDashboard (fetch : Nat → Except String Table) : Option Table :=
  let df := (load_data fetch).table
  if df.rows = [] ∨ df.headers = [] ∨ ¬ (∀ c ∈ REQUIRED_COLS, c ∈ df.headers) then
    none
  else
    some df

/-- A typed row of the normalized table, as the aggregations use it. -/
structure StudentRow where
  gender : String
  sscGpa : ℚ
  hscGpa : ℚ
  year : String
deriving DecidableEq

/-- The declared domain and fixed display order of academic years. -/
def ACADEMIC_ORDER : List String :=
  ["1st Year", "2nd Year", "3rd Year", "4th Year"]

/-- First-occurrence distinct values of a list, as pandas unique. -/
def dedupFirst {α : Type} [DecidableEq α] : List α → List α
  | [] => []
  | a :: as => a :: dedupFirst (as.filter (fun b => b != a))
termination_by l => l.length
decreasing_by
  simp only [List.length_cons]
  exact Nat.lt_succ_of_le (List.length_filter_le _ _)

/-- Number of occurrences of a value in a list of cells. -/
def countVal (l : List String) (c : String) : Nat :=
  (l.filter (fun v => v == c)).length

/-- Order on tabulation entries: count non-increasing. -/
def cntGe (p q : String × Nat) : Prop := q.2 ≤ p.2

instance : DecidableRel cntGe := fun p q =>
  inferInstanceAs (Decidable (q.2 ≤ p.2))

instance : IsTotal (String × Nat) cntGe :=
  ⟨fun a b => (Nat.le_total b.2 a.2).imp id id⟩

instance : IsTrans (String × Nat) cntGe :=
  ⟨fun _ _ _ h1 h2 => Nat.le_trans h2 h1⟩

/-- Series.value_counts: drop nulls, tabulate each distinct value with
its multiplicity, and sort by count descending. -/
def value_counts (col : List (Option String)) : List (String × Nat) :=
  let vals := col.filterMap id
  List.insertionSort cntGe ((dedupFirst vals).map (fun c => (c, countVal vals c)))

/-- gender_counts: value_counts of the Gender column. -/
def gender_counts (df : List StudentRow) : List (String × Nat) :=
  value_counts (df.map (fun r => some r.gender))

/-- academic_year_counts: value_counts of the Academic Year column. -/
def academic_year_counts (df : List StudentRow) : List (String × Nat) :=
  value_counts (df.map (fun r => some r.year))

/-- Number of rows carrying a given (gender, year) pair. -/
def countPairs (rows : List StudentRow) (g y : String) : Nat :=
  (rows.filter (fun r => r.gender == g && r.year == y)).length

/-- Lexicographic order on (gender, year) group keys, as the sorted
groupby index. -/
def keyLe (a b : String × String) : Prop :=
  a.1 < b.1 ∨ (a.1 = b.1 ∧ a.2 ≤ b.2)

instance : DecidableRel keyLe := fun a b =>
  inferInstanceAs (Decidable (a.1 < b.1 ∨ (a.1 = b.1 ∧ a.2 ≤ b.2)))

instance : IsTotal (String × String) keyLe := by
  constructor
  intro a b
  rcases lt_trichotomy a.1 b.1 with h | h | h
  · exact Or.inl (Or.inl h)
  · rcases le_total a.2 b.2 with h2 | h2
    · exact Or.inl (Or.inr ⟨h, h2⟩)
    · exact Or.inr (Or.inr ⟨h.symm, h2⟩)
  · exact Or.inr (Or.inl h)

instance : IsTrans (String × String) keyLe := by
  constructor
  intro a b c hab hbc
  rcases hab with h1 | ⟨h1, h1'⟩
  · rcases hbc with h2 | ⟨h2, _⟩
    · exact Or.inl (lt_trans h1 h2)
    · exact Or.inl (h2 ▸ h1)
  · rcases hbc with h2 | ⟨h2, h2'⟩
    · exact Or.inl (h1 ▸ h2)
    · exact Or.inr ⟨h1.trans h2, le_trans h1' h2'⟩

/-- grouped_data: df.groupby([Gender, Academic Year]).size(), the
sorted distinct key pairs with the count of rows matching both. -/
def grouped_data (df : List StudentRow) : List (String × String × Nat) :=
  let keys := List.insertionSort keyLe (dedupFirst (df.map (fun r => (r.gender, r.year))))
  keys.map (fun k => (k.1, k.2, countPairs df k.1 k.2))

/-- filtered_df_box: the rows whose academic year lies in the declared
order, feeding the box plot. -/
def filtered_df_box (df : List StudentRow) : List StudentRow :=
  df.filter (fun r => decide (r.year ∈ ACADEMIC_ORDER))

/-- A 2-D count matrix: row keys, column keys and the cell grid. -/
structure Pivot where
  rowKeys : List String
  colKeys : List String
  cells : List (List Nat)
deriving DecidableEq

/-- pivot_table(index=Gender, columns=Academic Year, aggfunc=size,
fill_value=0): sorted distinct genders against sorted distinct years,
each cell the number of rows with that (gender, year) pair. -/
def pivotTableSize (rows : List StudentRow) : Pivot :=
  let rks := List.insertionSort (fun a b : String => a ≤ b)
    (dedupFirst (rows.map (fun r => r.gender)))
  let cks := List.insertionSort (fun a b : String => a ≤ b)
    (dedupFirst (rows.map (fun r => r.year)))
  ⟨rks, cks, rks.map (fun g => cks.map (fun y => countPairs rows g y))⟩

/-- Value of a pivot row at a column key: the association of the old
column keys with the row values, defaulting to the fill value 0. -/
def rowLookup (colKeys : List String) (vals : List Nat) (c : String) : Nat :=
  ((colKeys.zip vals).lookup c).getD 0

/-- reindex(columns=newCols, fill_value=0): keep the row index, take
exactly the new columns in order, fill missing columns with 0. -/
def reindexColumns (p : Pivot) (newCols : List String) : Pivot :=
  ⟨p.rowKeys, newCols,
    p.cells.map (fun row => newCols.map (fun c => rowLookup p.colKeys row c))⟩

/-- The GPA predicate selecting high performers. -/
def highGpa (r : StudentRow) : Bool := decide ((3 : ℚ) < r.sscGpa)

/-- performance_pivot: filter to rows with S.S.C GPA above 3.00, pivot
by gender and academic year, then reindex to the declared order. -/
def performance_pivot (df : List StudentRow) : Pivot :=
  let performance_df := df.filter highGpa
  reindexColumns (pivotTableSize performance_df) ACADEMIC_ORDER

/-! Concrete fixtures used by witnesses and counterexamples. -/

/-- A high-GPA first-year row. -/
def wRow1 : StudentRow := ⟨"F", 4, 4, "1st Year"⟩

/-- A low-GPA row, filtered out of the performance pivot. -/
def wRowLow : StudentRow := ⟨"M", 2, 3, "2nd Year"⟩

/-- A row whose year lies outside the declared domain. -/
def wRowOdd : StudentRow := ⟨"M", 4, 4, "5th Year"⟩

/-- A one-cell table under the raw tab header, with untrimmed value. -/
def wTableRaw : Table := ⟨[COL_ACADEMIC_YEAR_RAW], [[" 2nd Year\t"]]⟩

/-- A table whose header contains the substring but matches neither
literal variant. -/
def wTableSub : Table := ⟨["Academic Year in EU"], [["x"]]⟩

/-- A table with no academic-year column at all. -/
def wTableNoYear : Table := ⟨["Gender"], [["M"]]⟩

/-- A one-cell table under the plain-space variant header. -/
def wTableSpace : Table := ⟨[COL_ACADEMIC_YEAR_SPACE], [["w"]]⟩

/-- A fetch oracle that fails on every attempt. -/
def wFetchErr : Nat → Except String Table := fun _ => Except.error "boom"

/-- A fetch oracle that fails on attempt 0 and differs afterwards. -/
def wFetchErr2 : Nat → Except String Table :=
  fun n => if n = 0 then Except.error "boom" else Except.ok emptyTable

/-- A fetch oracle returning a table without the academic-year column. -/
def wFetchOk : Nat → Except String Table := fun _ => Except.ok wTableNoYear

/-- A small categorical column with a repeated value and a null. -/
def wCol : List (Option String) := [some "F", some "M", some "F", none]

/-! Helper lemmas about column renaming. -/

theorem mem_renameColumn {old new s : String} (t : Table) (hnew : s ≠ new) :
    s ∈ (renameColumn old new t).headers ↔ s ∈ t.headers ∧ s ≠ old := by
  simp only [renameColumn, List.mem_map]
  constructor
  · rintro ⟨x, hx, hfx⟩
    by_cases hxo : x = old
    · rw [if_pos hxo] at hfx
      exact absurd hfx.symm hnew
    · rw [if_neg hxo] at hfx
      exact ⟨hfx ▸ hx, hfx ▸ hxo⟩
  · rintro ⟨hs, hso⟩
    exact ⟨s, hs, if_neg hso⟩

theorem new_mem_renameColumn {old new : String} (t : Table) (h : old ∈ t.headers) :
    new ∈ (renameColumn old new t).headers := by
  simp only [renameColumn, List.mem_map]
  exact ⟨old, h, if_pos rfl⟩

/-- Claim C1 (counterexample): the normalizer renames the raw header of
a one-cell table but leaves the cell value " 2nd Year\t" untrimmed, so
the claimed normalization to "2nd Year" does not happen. -/
theorem c1_counterexample :
    normalizeColumns wTableRaw =
      Except.ok ⟨[COL_ACADEMIC_YEAR], [[" 2nd Year\t"]]⟩ ∧
    (" 2nd Year\t" : String) ≠ "2nd Year" :=
  ⟨rfl, by decide⟩

/-- Claim C1 (amended): whenever normalization succeeds it renames the
academic-year column to the canonical key but leaves every cell value
unchanged; no whitespace trimming of values is performed. -/
theorem c1_values_unchanged (t t' : Table)
    (h : normalizeColumns t = Except.ok t') :
    t'.rows = t.rows ∧ COL_ACADEMIC_YEAR ∈ t'.headers := by
  unfold normalizeColumns at h
  split_ifs at h with h1 h2
  · cases h
    exact ⟨rfl, new_mem_renameColumn t h1⟩
  · cases h
    exact ⟨rfl, new_mem_renameColumn t h2⟩

/-- Claim C1 (witness): the amended statement evaluated on the one-cell
raw table. -/
theorem c1_witness :
    (⟨[COL_ACADEMIC_YEAR], [[" 2nd Year\t"]]⟩ : Table).rows = wTableRaw.rows ∧
    COL_ACADEMIC_YEAR ∈ (⟨[COL_ACADEMIC_YEAR], [[" 2nd Year\t"]]⟩ : Table).headers :=
  c1_values_unchanged wTableRaw _ rfl

/-- Claim C2 (counterexample): the header "Academic Year in EU" contains
the substring "Academic Year in EU", yet the normalizer fails to detect
it, because detection is by exact equality with two literal headers. -/
theorem c2_counterexample :
    ("Academic Year in EU" : String) = "" ++ "Academic Year in EU" ++ "" ∧
    normalizeColumns wTableSub = Except.error NOT_FOUND_MSG :=
  ⟨by decide, rfl⟩

/-- Claim C2 (amended): the normalizer succeeds exactly when one of the
two literal header variants (tab variant or plain-space variant) is
present verbatim among the headers; matching is exact, not substring
containment. -/
theorem c2_exact_match (t : Table) :
    (∃ t', normalizeColumns t = Except.ok t') ↔
      (COL_ACADEMIC_YEAR_RAW ∈ t.headers ∨ COL_ACADEMIC_YEAR_SPACE ∈ t.headers) := by
  unfold normalizeColumns
  split_ifs with h1 h2
  · simp [h1]
  · simp [h1, h2]
  · simp [h1, h2]

/-- Claim C2 (witness): the amended statement evaluated on the table
carrying the literal tab-variant header. -/
theorem c2_witness : ∃ t', normalizeColumns wTableRaw = Except.ok t' :=
  (c2_exact_match wTableRaw).mpr (Or.inl (by decide))

/-- Claim C5: when the fetch succeeds but neither literal header
variant is present, load_data surfaces the missing-column error and
returns the empty table, and the dashboard halts with no output. -/
theorem c5_halt (f : Nat → Except String Table) (t : Table)
    (hf : f 0 = Except.ok t)
    (h1 : COL_ACADEMIC_YEAR_RAW ∉ t.headers)
    (h2 : COL_ACADEMIC_YEAR_SPACE ∉ t.headers) :
    (load_data f).errorMsg = some NOT_FOUND_MSG ∧
    (load_data f).table = emptyTable ∧
    runDashboard f = none := by
  have hn : normalizeColumns t = Except.error NOT_FOUND_MSG := by
    unfold normalizeColumns
    rw [if_neg h1, if_neg h2]
  refine ⟨?_, ?_, ?_⟩
  · simp [load_data, hf, hn]
  · simp [load_data, hf, hn]
  · simp [runDashboard, load_data, hf, hn, emptyTable]

/-- Claim C5 (witness): the halt evaluated on a fetch returning a table
with only a Gender column. -/
theorem c5_witness :
    (load_data wFetchOk).errorMsg = some NOT_FOUND_MSG ∧
    (load_data wFetchOk).table = emptyTable ∧
    runDashboard wFetchOk = none :=
  c5_halt wFetchOk wTableNoYear rfl (by decide) (by decide)

/-- Claim C6: on a fetch failure load_data returns the explicit empty
table together with the surfaced error message, and load_data consults
only attempt 0 of the fetch oracle, so exactly one attempt is made. -/
theorem c6_single_attempt (f g : Nat → Except String Table) (e : String)
    (hf : f 0 = Except.error e) (hfg : f 0 = g 0) :
    load_data f = ⟨emptyTable, some ("Error loading data from GitHub: " ++ e)⟩ ∧
    load_data f = load_data g := by
  constructor
  · simp [load_data, hf]
  · unfold load_data
    rw [← hfg]

/-- Claim C6 (witness): evaluated on a failing oracle and a second
oracle that agrees on attempt 0 only. -/
theorem c6_witness :
    load_data wFetchErr = ⟨emptyTable, some ("Error loading data from GitHub: " ++ "boom")⟩ ∧
    load_data wFetchErr = load_data wFetchErr2 :=
  c6_single_attempt wFetchErr wFetchErr2 "boom" rfl rfl

/-- Claim C7 (counterexample): normalizing a table with the raw header
succeeds, but normalizing the already-normalized result signals the
missing-column error instead of being a no-op. -/
theorem c7_counterexample :
    normalizeColumns ⟨[COL_ACADEMIC_YEAR_RAW], [["v"]]⟩ =
      Except.ok ⟨[COL_ACADEMIC_YEAR], [["v"]]⟩ ∧
    normalizeColumns ⟨[COL_ACADEMIC_YEAR], [["v"]]⟩ = Except.error NOT_FOUND_MSG :=
  ⟨rfl, rfl⟩

/-- Claim C7 (amended): normalization is not idempotent; whichever of
the two raw header variants a table carries (as long as it does not
carry both at once), re-running normalization on its normalized form
fails with the missing-column error rather than leaving the table
unchanged. -/
theorem c7_not_idempotent (t t' : Table)
    (h : normalizeColumns t = Except.ok t')
    (hboth : ¬ (COL_ACADEMIC_YEAR_RAW ∈ t.headers ∧
        COL_ACADEMIC_YEAR_SPACE ∈ t.headers)) :
    normalizeColumns t' = Except.error NOT_FOUND_MSG := by
  unfold normalizeColumns at h
  split_ifs at h with h1 h2
  · cases h
    have hr : COL_ACADEMIC_YEAR_RAW ∉
        (renameColumn COL_ACADEMIC_YEAR_RAW COL_ACADEMIC_YEAR t).headers := by
      rw [mem_renameColumn t (by decide)]
      rintro ⟨-, hne⟩
      exact hne rfl
    have hs : COL_ACADEMIC_YEAR_SPACE ∉
        (renameColumn COL_ACADEMIC_YEAR_RAW COL_ACADEMIC_YEAR t).headers := by
      rw [mem_renameColumn t (by decide)]
      rintro ⟨hmem, -⟩
      exact hboth ⟨h1, hmem⟩
    unfold normalizeColumns
    rw [if_neg hr, if_neg hs]
  · cases h
    have hr : COL_ACADEMIC_YEAR_RAW ∉
        (renameColumn COL_ACADEMIC_YEAR_SPACE COL_ACADEMIC_YEAR t).headers := by
      rw [mem_renameColumn t (by decide)]
      rintro ⟨hmem, -⟩
      exact h1 hmem
    have hs : COL_ACADEMIC_YEAR_SPACE ∉
        (renameColumn COL_ACADEMIC_YEAR_SPACE COL_ACADEMIC_YEAR t).headers := by
      rw [mem_renameColumn t (by decide)]
      rintro ⟨-, hne⟩
      exact hne rfl
    unfold normalizeColumns
    rw [if_neg hr, if_neg hs]

/-- Claim C7 (witness): the amended statement evaluated on a one-cell
table under the plain-space variant header, whose normalized form fails
to re-normalize. -/
theorem c7_witness :
    normalizeColumns ⟨[COL_ACADEMIC_YEAR], [["w"]]⟩ =
      Except.error NOT_FOUND_MSG :=
  c7_not_idempotent wTableSpace _ rfl (by decide)

/-! Helper lemmas about dedupFirst, counting and pivot reindexing. -/

theorem mem_dedupFirst {α : Type} [DecidableEq α] (l : List α) (x : α) :
    x ∈ dedupFirst l ↔ x ∈ l := by
  induction l using dedupFirst.induct with
  | case1 => simp [dedupFirst]
  | case2 a as ih =>
    rw [dedupFirst]
    by_cases hx : x = a
    · simp [hx]
    · simp only [List.mem_cons, ih, List.mem_filter, bne_iff_ne, ne_eq, decide_eq_true_eq]
      constructor
      · rintro (rfl | ⟨h1, _⟩)
        · exact Or.inl rfl
        · exact Or.inr h1
      · rintro (rfl | h1)
        · exact Or.inl rfl
        · exact Or.inr ⟨h1, hx⟩

theorem nodup_dedupFirst {α : Type} [DecidableEq α] (l : List α) :
    (dedupFirst l).Nodup := by
  induction l using dedupFirst.induct with
  | case1 => simp [dedupFirst]
  | case2 a as ih =>
    rw [dedupFirst, List.nodup_cons]
    refine ⟨?_, ih⟩
    intro hmem
    rw [mem_dedupFirst] at hmem
    simp [List.mem_filter] at hmem

theorem countPairs_eq_zero (rows : List StudentRow) (g y : String)
    (h : y ∉ rows.map (fun r => r.year)) : countPairs rows g y = 0 := by
  unfold countPairs
  rw [List.length_eq_zero, List.filter_eq_nil_iff]
  intro r hr
  simp only [Bool.and_eq_true, beq_iff_eq, not_and]
  intro _ hy
  exact h (List.mem_map.mpr ⟨r, hr, hy⟩)

theorem rowLookup_map (h : String → Nat) (c : String) (cks : List String) :
    rowLookup cks (cks.map h) c = if c ∈ cks then h c else 0 := by
  induction cks with
  | nil => simp [rowLookup]
  | cons b bs ih =>
    by_cases hcb : c = b
    · subst hcb
      simp [rowLookup, List.lookup]
    · have hne : (c == b) = false := by simp [hcb]
      simp only [rowLookup, List.zip] at ih ⊢
      simp only [List.map_cons, List.zipWith_cons_cons, List.lookup, hne]
      rw [ih]
      simp [List.mem_cons, hcb]

/-- Claim C3: the filtered pivot always has exactly the colOrder
columns in the fixed order; every cell is the count of qualifying rows
at its (gender, year) indices; and any colOrder key with no qualifying
rows yields a zero count, so its column is zero-filled, for every input
table whatever the order of its rows. -/
theorem c3_pivot_columns (df : List StudentRow) :
    (performance_pivot df).colKeys = ACADEMIC_ORDER ∧
    (performance_pivot df).cells =
      (performance_pivot df).rowKeys.map (fun g =>
        ACADEMIC_ORDER.map (fun y => countPairs (df.filter highGpa) g y)) ∧
    ∀ g y, y ∉ (df.filter highGpa).map (fun r => r.year) →
      countPairs (df.filter highGpa) g y = 0 := by
  refine ⟨rfl, ?_, fun g y hy => countPairs_eq_zero _ g y hy⟩
  simp only [performance_pivot, reindexColumns, pivotTableSize, List.map_map]
  apply List.map_congr_left
  intro g _
  simp only [Function.comp]
  apply List.map_congr_left
  intro y _
  rw [rowLookup_map]
  by_cases hmem : y ∈ List.insertionSort (fun a b : String => a ≤ b)
      (dedupFirst ((df.filter highGpa).map (fun r => r.year)))
  · rw [if_pos hmem]
  · rw [if_neg hmem]
    symm
    apply countPairs_eq_zero
    intro hy'
    apply hmem
    rw [List.mem_insertionSort, mem_dedupFirst]
    exact hy'

/-- Claim C3 (witness): evaluated on a one-row table; the fourth-year
key has no qualifying rows and counts zero. -/
theorem c3_witness :
    (performance_pivot [wRow1]).colKeys = ACADEMIC_ORDER ∧
    countPairs ([wRow1].filter highGpa) "F" "4th Year" = 0 :=
  ⟨(c3_pivot_columns [wRow1]).1,
   (c3_pivot_columns [wRow1]).2.2 "F" "4th Year" (by decide)⟩

/-- Claim C4: when no row passes the GPA predicate the filtered pivot
is the total all-zero matrix with an empty row index and the four
declared columns; the computation is a total function, so no exception
is possible. -/
theorem c4_empty_filter (df : List StudentRow) (h : df.filter highGpa = []) :
    performance_pivot df = ⟨[], ACADEMIC_ORDER, []⟩ := by
  simp [performance_pivot, pivotTableSize, reindexColumns, h, dedupFirst,
    List.insertionSort]

/-- Claim C4 (witness): evaluated on a one-row table whose single GPA
fails the predicate. -/
theorem c4_witness : performance_pivot [wRowLow] = ⟨[], ACADEMIC_ORDER, []⟩ :=
  c4_empty_filter [wRowLow] (by decide)

/-- Claim C9 (counterexample): a row with year "5th Year", outside the
declared domain, is counted by the gender-by-year grouped aggregation,
so it is not excluded from every order-restricted aggregation. -/
theorem c9_counterexample :
    grouped_data [wRowOdd] = [("M", "5th Year", 1)] ∧
    ("5th Year" : String) ∉ ACADEMIC_ORDER := by
  constructor
  · simp [grouped_data, dedupFirst, List.insertionSort, List.orderedInsert,
      countPairs, wRowOdd]
  · decide

/-- Claim C9 (amended): a row whose year lies outside the declared
domain is excluded from the box-plot filter and from the pivot columns,
but it is retained by the gender-by-year grouped count, which carries
its key pair with a positive count. -/
theorem c9_partial_exclusion (df : List StudentRow) (r : StudentRow)
    (hr : r ∈ df) (hy : r.year ∉ ACADEMIC_ORDER) :
    r ∉ filtered_df_box df ∧
    r.year ∉ (performance_pivot df).colKeys ∧
    ∃ n, 0 < n ∧ (r.gender, r.year, n) ∈ grouped_data df := by
  refine ⟨?_, ?_, ?_⟩
  · intro hmem
    rw [filtered_df_box, List.mem_filter] at hmem
    exact hy (by simpa using hmem.2)
  · exact hy
  · refine ⟨countPairs df r.gender r.year, ?_, ?_⟩
    · have hmem : r ∈ df.filter (fun x => x.gender == r.gender && x.year == r.year) := by
        rw [List.mem_filter]
        exact ⟨hr, by simp⟩
      exact List.length_pos_of_mem hmem
    · simp only [grouped_data]
      apply List.mem_map.mpr
      refine ⟨(r.gender, r.year), ?_, rfl⟩
      rw [List.mem_insertionSort, mem_dedupFirst]
      exact List.mem_map.mpr ⟨r, hr, rfl⟩

/-- Claim C9 (witness): the amended statement evaluated on the one-row
table with the out-of-domain year. -/
theorem c9_witness :
    wRowOdd ∉ filtered_df_box [wRowOdd] ∧
    ("5th Year" : String) ∉ (performance_pivot [wRowOdd]).colKeys ∧
    ∃ n, 0 < n ∧ ("M", "5th Year", n) ∈ grouped_data [wRowOdd] :=
  c9_partial_exclusion [wRowOdd] wRowOdd (List.mem_singleton.mpr rfl) (by decide)

/-! Counting lemmas feeding the tabulation claims. -/

theorem countVal_cons (a : String) (l : List String) (c : String) :
    countVal (a :: l) c = (if a == c then 1 else 0) + countVal l c := by
  by_cases h : a = c <;> simp [countVal, List.filter_cons, h, Nat.add_comm]

theorem countVal_filter_ne (a c : String) (hne : c ≠ a) (l : List String) :
    countVal (l.filter (fun b => b != a)) c = countVal l c := by
  induction l with
  | nil => rfl
  | cons b bs ih =>
    by_cases hba : b = a
    · subst hba
      have hbc : (b == c) = false := beq_eq_false_iff_ne.mpr (fun h => hne h.symm)
      simp [List.filter_cons, ih, countVal_cons, hbc]
    · have hkeep : (b != a) = true := bne_iff_ne.mpr hba
      simp [List.filter_cons, hkeep, countVal_cons, ih]

theorem length_count_split (a : String) (l : List String) :
    l.length = countVal l a + (l.filter (fun b => b != a)).length := by
  induction l with
  | nil => rfl
  | cons b bs ih =>
    by_cases hba : b = a
    · subst hba
      simp only [List.length_cons, countVal_cons, beq_self_eq_true, if_true,
        List.filter_cons, bne_self_eq_false, Bool.false_eq_true, if_false]
      omega
    · have h1 : (b == a) = false := beq_eq_false_iff_ne.mpr hba
      have h2 : (b != a) = true := bne_iff_ne.mpr hba
      simp only [List.length_cons, countVal_cons, h1, Bool.false_eq_true, if_false,
        List.filter_cons, h2, if_true]
      omega

theorem sum_counts_dedupFirst (l : List String) :
    ((dedupFirst l).map (fun c => countVal l c)).sum = l.length := by
  induction l using dedupFirst.induct with
  | case1 => simp [dedupFirst]
  | case2 a as ih =>
    rw [dedupFirst]
    simp only [List.map_cons, List.sum_cons]
    have hmap : (dedupFirst (as.filter (fun b => b != a))).map
          (fun c => countVal (a :: as) c)
        = (dedupFirst (as.filter (fun b => b != a))).map
          (fun c => countVal (as.filter (fun b => b != a)) c) := by
      apply List.map_congr_left
      intro c hc
      rw [mem_dedupFirst, List.mem_filter] at hc
      have hcne : c ≠ a := by simpa using hc.2
      have hac : (a == c) = false := beq_eq_false_iff_ne.mpr (fun h => hcne h.symm)
      rw [countVal_cons, countVal_filter_ne a c hcne]
      simp [hac]
    rw [hmap, ih, countVal_cons]
    have hsplit := length_count_split a as
    simp only [beq_self_eq_true, if_true, List.length_cons]
    omega

/-- Claim C8: for every column, the value-count tabulation sums to the
number of non-null entries, its categories are unique, and each count
equals the multiplicity of its category among the non-null values. -/
theorem c8_tabulation (col : List (Option String)) :
    ((value_counts col).map Prod.snd).sum = (col.filterMap id).length ∧
    ((value_counts col).map Prod.fst).Nodup ∧
    ∀ p, p ∈ value_counts col → p.2 = countVal (col.filterMap id) p.1 := by
  have hvc : value_counts col = List.insertionSort cntGe
      ((dedupFirst (col.filterMap id)).map
        (fun c => (c, countVal (col.filterMap id) c))) := rfl
  have hperm := List.perm_insertionSort cntGe
    ((dedupFirst (col.filterMap id)).map
      (fun c => (c, countVal (col.filterMap id) c)))
  refine ⟨?_, ?_, ?_⟩
  · rw [hvc, List.Perm.sum_eq (List.Perm.map Prod.snd hperm), List.map_map]
    simpa [Function.comp] using sum_counts_dedupFirst (col.filterMap id)
  · rw [hvc, List.Perm.nodup_iff (List.Perm.map Prod.fst hperm), List.map_map]
    have hid : (Prod.fst ∘ fun c => (c, countVal (col.filterMap id) c)) =
        fun c : String => c := rfl
    rw [hid, List.map_id']
    exact nodup_dedupFirst (col.filterMap id)
  · intro p hp
    rw [hvc] at hp
    have hp2 := hperm.mem_iff.mp hp
    rcases List.mem_map.mp hp2 with ⟨c, _, hcp⟩
    rw [← hcp]

/-- Claim C8 (witness): evaluated on a four-entry column with one null;
the counts sum to three and the entry for "F" counts its two rows. -/
theorem c8_witness :
    ((value_counts wCol).map Prod.snd).sum = (wCol.filterMap id).length ∧
    ((value_counts wCol).map Prod.fst).Nodup ∧
    (("F", 2) : String × Nat).2 = countVal (wCol.filterMap id) ("F", 2).1 :=
  ⟨(c8_tabulation wCol).1, (c8_tabulation wCol).2.1,
   (c8_tabulation wCol).2.2 ("F", 2)
     (by simp [value_counts, wCol, dedupFirst, countVal,
       List.insertionSort, List.orderedInsert, cntGe])⟩

/-- Claim C10: the tabulation orders its pairs by non-increasing count,
both in general and for the gender and academic-year tabulations. -/
theorem c10_sorted_desc (df : List StudentRow) (col : List (Option String)) :
    List.Pairwise (fun p q : String × Nat => q.2 ≤ p.2) (value_counts col) ∧
    List.Pairwise (fun p q : String × Nat => q.2 ≤ p.2) (gender_counts df) ∧
    List.Pairwise (fun p q : String × Nat => q.2 ≤ p.2) (academic_year_counts df) :=
  ⟨List.sorted_insertionSort cntGe _,
   List.sorted_insertionSort cntGe _,
   List.sorted_insertionSort cntGe _⟩

end TutoSV
